import Mathlib

/-!
Verification of the AHT21 / ENS160 MicroPython sensor drivers.

The drivers talk to two I2C sensors through a byte transport.  We embed the
driver logic shallowly: every I2C primitive is represented by the value the
transport would return (`I2CRes`), floats are modelled as exact rationals,
fallible code returns `Except`, and the one genuinely recursive routine
(`ENS160.update`) is given explicit fuel so that its unbounded recursion is
observable as fuel exhaustion (`none`).
-/

namespace Sensors

/-- Result of a single I2C primitive: either the delivered value or an
`OSError` raised by the bus. -/
inductive I2CRes (α : Type) where
  | ok (a : α)
  | osErr
deriving DecidableEq, Repr

/-! ## AHT21 driver (src/aht21.py) -/

/-- Error kinds raised by the AHT21 driver: `AHT21CRCError`,
`AHT21TimeoutError`, a propagated `OSError`, `AHT21CalibrationError`. -/
inductive AHTFail where
  | crcError
  | timeoutError
  | osError
  | calibError
deriving DecidableEq, Repr

/-- One iteration of the inner CRC loop of `AHT21._calculate_crc8`:
`if crc & 0x80: crc = (crc << 1) ^ 0x31 else: crc = crc << 1`.
Note the source does not mask inside this loop. -/
def crc8_code_step (c : Nat) : Nat :=
  if c &&& 0x80 ≠ 0 then (c <<< 1) ^^^ 0x31 else c <<< 1

/-- `for _ in range(8)` applications of `crc8_code_step`. -/
def crc8_rounds : Nat → Nat → Nat
  | 0, c => c
  | n + 1, c => crc8_rounds n (crc8_code_step c)

/-- `AHT21._calculate_crc8` (src/aht21.py lines 212-234): seed `0xFF`; for
each of the first six bytes XOR it in, run eight shift rounds, and mask the
accumulator to 8 bits. -/
def calculate_crc8 (data : List Nat) : Nat :=
  (data.take 6).foldl (fun crc b => (crc8_rounds 8 (crc ^^^ b)) &&& 0xFF) 0xFF

/-- One iteration of the CRC-8 reference algorithm stated by the spec, where
the accumulator is an 8-bit register: shift left, XOR with the polynomial
`0x31` when the high bit was set, keep 8 bits. -/
def crc8_spec_step (c : Nat) : Nat :=
  ((c <<< 1) ^^^ (if c &&& 0x80 ≠ 0 then 0x31 else 0)) &&& 0xFF

/-- Reference CRC-8 from the spec's words: seed `0xFF`; per byte XOR into the
accumulator then eight register iterations. -/
def crc8_spec_go : Nat → List Nat → Nat
  | c, [] => c
  | c, b :: rest => crc8_spec_go (crc8_spec_step^[8] (c ^^^ b)) rest

/-- Reference CRC-8 with polynomial `0x31` and initial value `0xFF`, written
from the spec's description of the algorithm. -/
def crc8_spec (bytes : List Nat) : Nat := crc8_spec_go 0xFF bytes

/-- Transport behaviour of one measurement attempt inside
`AHT21.read_temperature_humidity`: the trigger write, the sequence of status
bytes answered to the busy polls, and the 7-byte data read. -/
structure AttemptBeh where
  trigger : I2CRes Unit
  statusBytes : Nat → I2CRes Nat
  frame : I2CRes (List Nat)

/-- Busy-poll loop of `read_temperature_humidity` (src/aht21.py lines
144-151): poll `_is_busy` (bit 7 of the status byte); every poll after the
first happens 5 ms later, and once the elapsed time `5 * i` exceeds the
150 ms budget the loop raises `AHT21TimeoutError`.  An `OSError` from the
status read propagates. -/
def poll_busy (st : Nat → I2CRes Nat) (i : Nat) : Except AHTFail Unit :=
  match st i with
  | .osErr => .error .osError
  | .ok s =>
    if s &&& 0x80 ≠ 0 then
      if _h : 5 * i > 150 then .error .timeoutError
      else poll_busy st (i + 1)
    else .ok ()
termination_by 31 - i
decreasing_by simp_wf; omega

/-- Raw 20-bit humidity field: `(data[1] << 12) | (data[2] << 4) | (data[3] >> 4)`. -/
def raw_humidity (data : List Nat) : Nat :=
  (data.getD 1 0) <<< 12 ||| (data.getD 2 0) <<< 4 ||| (data.getD 3 0) >>> 4

/-- Raw 20-bit temperature field: `((data[3] & 0x0F) << 16) | (data[4] << 8) | data[5]`. -/
def raw_temperature (data : List Nat) : Nat :=
  ((data.getD 3 0) &&& 0x0F) <<< 16 ||| (data.getD 4 0) <<< 8 ||| data.getD 5 0

/-- Body of one attempt of `read_temperature_humidity` (src/aht21.py lines
135-172): trigger the measurement, wait, poll busy, read the 7-byte frame,
check the CRC of the first six bytes against byte 7, decode the two 20-bit
fields and convert them to physical units (floats modelled as rationals). -/
def do_attempt (b : AttemptBeh) : Except AHTFail (ℚ × ℚ) :=
  match b.trigger with
  | .osErr => .error .osError
  | .ok _ =>
    match poll_busy b.statusBytes 0 with
    | .error e => .error e
    | .ok _ =>
      match b.frame with
      | .osErr => .error .osError
      | .ok data =>
        if calculate_crc8 (data.take 6) ≠ data.getD 6 0 then .error .crcError
        else
          .ok ((raw_temperature data : ℚ) / 1048576 * 200 - 50,
               (raw_humidity data : ℚ) / 1048576 * 100)

/-- Retry loop of `read_temperature_humidity` (src/aht21.py lines 133-177):
`for attempt in range(retries)`, retrying (after a 50 ms sleep, recorded in
the second component) only on `AHT21CRCError` / `AHT21TimeoutError`, and
re-raising on the last attempt.  Falling off the end of the loop returns
Python `None`, modelled as `none`. -/
def read_th_loop (tr : Nat → AttemptBeh) (retries : ℤ) (attempt : Nat) :
    Option (Except AHTFail (ℚ × ℚ)) × List Nat :=
  if _h : (attempt : ℤ) < retries then
    match do_attempt (tr attempt) with
    | .ok v => (some (.ok v), [])
    | .error e =>
      if e = .crcError ∨ e = .timeoutError then
        if _h2 : (attempt : ℤ) = retries - 1 then (some (.error e), [])
        else
          let r := read_th_loop tr retries (attempt + 1)
          (r.1, 50 :: r.2)
      else (some (.error e), [])
  else (none, [])
termination_by (retries - attempt).toNat
decreasing_by simp_wf; omega

/-- `AHT21.read_temperature_humidity(retries)` over a transport giving the
behaviour of each attempt. -/
def read_temperature_humidity (tr : Nat → AttemptBeh) (retries : ℤ) :
    Option (Except AHTFail (ℚ × ℚ)) × List Nat :=
  read_th_loop tr retries 0

/-- `AHT21._is_calibrated` applied to a status byte: `(status & 0x18) == 0x18`. -/
def is_calibrated_status (s : Nat) : Bool := s &&& 0x18 == 0x18

/-- Calibration loop of `AHT21.__init__` (src/aht21.py lines 94-109) over the
list of remaining attempt indices (`range(3)`).  Returns the construction
result, the number of calibration checks performed, and the initialize
commands (`[0xBE, 0x08, 0x00]`) sent after failed checks. -/
def aht21_init_go (st : Nat → I2CRes Nat) :
    List Nat → Except AHTFail Unit × Nat × List (List Nat)
  | [] => (.error .calibError, 3, [])
  | a :: rest =>
    match st a with
    | .osErr => (.error .osError, a + 1, [])
    | .ok s =>
      if is_calibrated_status s then (.ok (), a + 1, [])
      else
        let r := aht21_init_go st rest
        (r.1, r.2.1, [0xBE, 0x08, 0x00] :: r.2.2)

/-- `AHT21.__init__` calibration phase: up to three calibration checks, the
status byte of check `i` being `st i`. -/
def aht21_init (st : Nat → I2CRes Nat) : Except AHTFail Unit × Nat × List (List Nat) :=
  aht21_init_go st [0, 1, 2]

/-! ## ENS160 driver (src/ens160.py) -/

/-- Error kinds escaping ENS160 operations: a raw `OSError`,
`ENS160InitError`, `ENS160CommunicationError`. -/
inductive ENSExc where
  | osError
  | initError
  | commError
deriving DecidableEq, Repr

/-- `ENS160._read_registers` (src/ens160.py lines 437-446): try the I2C read;
on `OSError` wait and try once more; a second `OSError` is converted into
`ENS160CommunicationError`.  `r1`/`r2` are the transport's answers to the two
attempts (`none` = `OSError`). -/
def ens_read_registers (r1 r2 : Option (List Nat)) : Except ENSExc (List Nat) :=
  match r1 with
  | some b => .ok b
  | none =>
    match r2 with
    | some b => .ok b
    | none => .error .commError

/-- PART_ID verification step of `ENS160.__init__` (src/ens160.py lines
174-188): read two bytes from register 0x00 via `_read_registers`, unpack
little-endian, require `0x0160`; the surrounding `try`/`except OSError`
converts an `OSError` — and only an `OSError` — into `ENS160InitError`. -/
def ens_init_check (r1 r2 : Option (List Nat)) : Except ENSExc Unit :=
  let body : Except ENSExc Unit :=
    match ens_read_registers r1 r2 with
    | .error e => .error e
    | .ok pb =>
      if pb.getD 0 0 + 256 * pb.getD 1 0 ≠ 0x0160 then .error .initError
      else .ok ()
  match body with
  | .error .osError => .error .initError
  | r => r

/-- Python `int()` of a rational: truncation toward zero. -/
def ratTrunc (q : ℚ) : ℤ := if 0 ≤ q then ⌊q⌋ else ⌈q⌉

/-- Temperature clipping in `ENS160.set_compensation`:
`max(-40.0, min(85.0, temperature_c))`. -/
def clip_temperature (t : ℚ) : ℚ := max (-40) (min 85 t)

/-- Humidity clipping in `ENS160.set_compensation`:
`max(0.0, min(100.0, humidity_rh))`. -/
def clip_humidity (h : ℚ) : ℚ := max 0 (min 100 h)

/-- `temp_value = int((temperature_c + 273.15) * 64)` after clipping
(src/ens160.py lines 225-231). -/
def temp_in_value (t : ℚ) : ℤ := ratTrunc ((clip_temperature t + 273.15) * 64)

/-- `rh_value = int(humidity_rh * 512)` after clipping
(src/ens160.py lines 226-235). -/
def rh_in_value (h : ℚ) : ℤ := ratTrunc (clip_humidity h * 512)

/-- `ENS160.set_compensation(temperature_c, humidity_rh)`: the pair of 16-bit
register values written to `TEMP_IN` and `RH_IN`. -/
def set_compensation (t h : ℚ) : ℤ × ℤ := (temp_in_value t, rh_in_value h)

/-- Temperature encoding as the spec words it: `round((temp_c+273.15)×64)`
after clipping. -/
def temp_in_round_spec (t : ℚ) : ℤ := round ((clip_temperature t + 273.15) * 64)

/-- Humidity encoding as the spec words it: `round(humidity_pct×512)` after
clipping. -/
def rh_in_round_spec (h : ℚ) : ℤ := round (clip_humidity h * 512)

/-- Cached reading fields of an `ENS160` instance. -/
structure ENSCache where
  aqi : Nat
  tvoc : Nat
  eco2 : Nat
  validity_flag : Nat
deriving DecidableEq, Repr

/-- Cache contents after `ENS160.__init__` / `ENS160.reset`:
`aqi=0, tvoc=0, eco2=400, validity_flag=1`. -/
def resetCache : ENSCache := ⟨0, 0, 400, 1⟩

/-- Parsing of the 6-byte burst read in `ENS160.update` (src/ens160.py lines
275-286): validity = bits 2-3 of byte 0, AQI = low 3 bits of byte 1, TVOC and
eCO2 little-endian 16-bit from bytes 2-3 and 4-5. -/
def parseBurst (data : List Nat) : ENSCache :=
  { validity_flag := (data.getD 0 0 >>> 2) &&& 0x03
    aqi := data.getD 1 0 &&& 0x07
    tvoc := data.getD 2 0 + 256 * data.getD 3 0
    eco2 := data.getD 4 0 + 256 * data.getD 5 0 }

/-- `ENS160.update` (src/ens160.py lines 241-297) over a transport giving,
for call number `n`, the status byte and the 6 burst bytes.  If the NEWDAT
bit (bit 1) is clear it returns `False` leaving the cache untouched;
otherwise it parses the burst; on validity 3 it runs `reset()` (which leaves
the cache at `resetCache`) and recurses.  The fuel argument makes the
source's unbounded recursion total: `none` means the recursion outlived the
fuel.  The third component counts the resets performed. -/
def ens_update (tr : Nat → Nat × List Nat) :
    Nat → Nat → ENSCache → Option (Bool × ENSCache × Nat)
  | 0, _, _ => none
  | fuel + 1, n, cache =>
    let status := (tr n).1
    if status &&& 0x02 = 0 then some (false, cache, 0)
    else
      let c := parseBurst (tr n).2
      if c.validity_flag = 3 then
        match ens_update tr fuel (n + 1) resetCache with
        | none => none
        | some (b, c2, r) => some (b, c2, r + 1)
      else some (c.validity_flag == 0, c, 0)

/-- Transport behaviour of one `ENS160.get_firmware_version` call: whether
the OPMODE→Idle write, the GET_APPVER command write, the 8-byte GPR read and
the OPMODE→Standard restore write succeed (a failed helper raises
`ENS160CommunicationError` after its internal retry). -/
structure FwTr where
  idleW : Bool
  cmdW : Bool
  gprR : Option (List Nat)
  restoreW : Bool

/-- The `f"{major}.{minor}.{release}"` string built from the GPR bytes. -/
def fw_version_string (g : List Nat) : String :=
  Nat.repr (g.getD 4 0) ++ "." ++ Nat.repr (g.getD 5 0) ++ "." ++ Nat.repr (g.getD 6 0)

/-- `ENS160.get_firmware_version` (src/ens160.py lines 356-393): the
`try` body switches to Idle, sends the command and reads the GPR block; the
`finally` always writes OPMODE=Standard (replacing the body's outcome with
its own error if that restore write itself fails).  Returns the call's
outcome together with the ordered list of successful register writes
`(register, value)`. -/
def get_firmware_version (tr : FwTr) : Except ENSExc String × List (Nat × Nat) :=
  let body : Except ENSExc String × List (Nat × Nat) :=
    if tr.idleW = false then (.error .commError, [])
    else if tr.cmdW = false then (.error .commError, [(0x10, 0x01)])
    else
      match tr.gprR with
      | none => (.error .commError, [(0x10, 0x01), (0x12, 0x0E)])
      | some g => (.ok (fw_version_string g), [(0x10, 0x01), (0x12, 0x0E)])
  if tr.restoreW then (body.1, body.2 ++ [(0x10, 0x02)])
  else (.error .commError, body.2)

/-- Values written to the OPMODE register (0x10), in order. -/
def opmode_writes (ws : List (Nat × Nat)) : List Nat :=
  (ws.filter (fun w => w.1 == 0x10)).map (fun w => w.2)

/-! ## Concrete transports used as test inputs -/

/-- A 6-byte data prefix for a valid AHT21 frame: busy clear, raw humidity
`0x80000` and raw temperature `0x08000`... both decoding to 50. -/
def goodData : List Nat := [0x1C, 0x80, 0x00, 0x08, 0x00, 0x00]

/-- The corresponding well-formed 7-byte frame, ending in its own CRC. -/
def goodFrame : List Nat := goodData ++ [calculate_crc8 goodData]

/-- A 7-byte frame whose checksum byte is deliberately wrong. -/
def badFrame : List Nat := [0, 0, 0, 0, 0, 0, (calculate_crc8 [0, 0, 0, 0, 0, 0] + 1) % 256]

/-- Attempt behaviour that is never busy and delivers frame `f`. -/
def okBeh (f : List Nat) : AttemptBeh :=
  { trigger := .ok (), statusBytes := fun _ => .ok 0, frame := .ok f }

/-- Transport yielding CRC mismatch on the first two attempts and a valid
frame on the third. -/
def crcThenGoodTr : Nat → AttemptBeh := fun n =>
  if n < 2 then okBeh badFrame else okBeh goodFrame

/-- Transport whose trigger write raises `OSError` on every attempt. -/
def osTr : Nat → AttemptBeh :=
  fun _ => { trigger := .osErr, statusBytes := fun _ => .ok 0, frame := .osErr }

/-- ENS160 burst data reporting validity 3 (Error): byte 0 = 0x0C. -/
def ensErrData : List Nat := [0x0C, 0, 0, 0, 0, 0]

/-- ENS160 burst data reporting validity 0 (Normal), AQI 2, TVOC 0x1234,
eCO2 0x0320. -/
def ensGoodData : List Nat := [0x00, 0x02, 0x34, 0x12, 0x20, 0x03]

/-- ENS160 transport: NEWDAT always set; Error on the first read, Normal
afterwards. -/
def errOnceTr : Nat → Nat × List Nat := fun n =>
  if n = 0 then (0x02, ensErrData) else (0x02, ensGoodData)

/-- ENS160 transport: NEWDAT always set; Error on the first two reads,
Normal afterwards. -/
def errErrGoodTr : Nat → Nat × List Nat := fun n =>
  if n < 2 then (0x02, ensErrData) else (0x02, ensGoodData)

/-- ENS160 transport: NEWDAT always set; Error on every read. -/
def errAlwaysTr : Nat → Nat × List Nat := fun _ => (0x02, ensErrData)

/-! ## CRC-8 theorems (C5) -/

lemma mask_ff_lt (a : Nat) : a &&& 0xFF < 256 :=
  Nat.lt_succ_of_le Nat.and_le_right

lemma crc8_fold_lt (l : List Nat) (acc : Nat) (hacc : acc < 256) :
    l.foldl (fun crc b => (crc8_rounds 8 (crc ^^^ b)) &&& 0xFF) acc < 256 := by
  induction l generalizing acc with
  | nil => exact hacc
  | cons b rest ih => exact ih _ (mask_ff_lt _)

set_option maxRecDepth 100000 in
lemma crc8_byte_step_eq : ∀ c < 256, (crc8_rounds 8 c) &&& 0xFF = crc8_spec_step^[8] c := by
  decide

lemma crc8_fold_eq_spec_go (l : List Nat) (acc : Nat) (hacc : acc < 256)
    (hl : ∀ b ∈ l, b < 256) :
    l.foldl (fun crc b => (crc8_rounds 8 (crc ^^^ b)) &&& 0xFF) acc = crc8_spec_go acc l := by
  induction l generalizing acc with
  | nil => rfl
  | cons b rest ih =>
    have hb : b < 256 := hl b (List.mem_cons_self _ _)
    have hx : acc ^^^ b < 256 := by
      have := Nat.xor_lt_two_pow (n := 8) (by simpa using hacc) (by simpa using hb)
      simpa using this
    have hstep := crc8_byte_step_eq (acc ^^^ b) hx
    simp only [List.foldl_cons, crc8_spec_go, hstep]
    exact ih _ (mask_ff_lt _) (fun x hx => hl x (List.mem_cons_of_mem _ hx))

/-- C5: `_calculate_crc8` is a pure function returning an 8-bit value, its
result depends only on the first six input bytes, and on byte inputs it
equals the reference CRC-8 with polynomial 0x31 and initial value 0xFF
computed on an 8-bit register. -/
theorem crc8_props :
    (∀ l, calculate_crc8 l < 256) ∧
    (∀ l₁ l₂, l₁.take 6 = l₂.take 6 → calculate_crc8 l₁ = calculate_crc8 l₂) ∧
    (∀ l, (∀ b ∈ l, b < 256) → calculate_crc8 l = crc8_spec (l.take 6)) := by
  refine ⟨fun l => crc8_fold_lt _ _ (by norm_num), fun l₁ l₂ h => ?_, fun l hl => ?_⟩
  · unfold calculate_crc8
    rw [h]
  · unfold calculate_crc8 crc8_spec
    exact crc8_fold_eq_spec_go _ _ (by norm_num)
      (fun b hb => hl b (List.take_subset 6 l hb))

/-- C5 witness: the CRC of a concrete frame prefix agrees with the reference
algorithm. -/
theorem crc8_props_witness : calculate_crc8 goodData = crc8_spec (goodData.take 6) :=
  crc8_props.2.2 goodData (by decide)

/-! ## Compensation encoding theorems (C2) -/

lemma ratTrunc_of_nonneg {q : ℚ} (h : 0 ≤ q) : ratTrunc q = ⌊q⌋ := if_pos h

lemma clip_temperature_mem (t : ℚ) :
    -40 ≤ clip_temperature t ∧ clip_temperature t ≤ 85 :=
  ⟨le_max_left _ _, max_le (by norm_num) (min_le_left _ _)⟩

lemma clip_humidity_mem (h : ℚ) :
    0 ≤ clip_humidity h ∧ clip_humidity h ≤ 100 :=
  ⟨le_max_left _ _, max_le (by norm_num) (min_le_left _ _)⟩

lemma temp_in_value_range (t : ℚ) : 0 ≤ temp_in_value t ∧ temp_in_value t < 65536 := by
  obtain ⟨hlo, hhi⟩ := clip_temperature_mem t
  have hq0 : (0 : ℚ) ≤ (clip_temperature t + 273.15) * 64 := by nlinarith
  rw [temp_in_value, ratTrunc_of_nonneg hq0]
  constructor
  · exact Int.floor_nonneg.mpr hq0
  · have hle : (clip_temperature t + 273.15) * 64 ≤ 22921.6 := by nlinarith
    have h2 : ⌊(clip_temperature t + 273.15) * 64⌋ ≤ ⌊(22921.6 : ℚ)⌋ :=
      Int.floor_le_floor hle
    have h3 : ⌊(22921.6 : ℚ)⌋ = 22921 := by norm_num
    omega

lemma rh_in_value_range (h : ℚ) : 0 ≤ rh_in_value h ∧ rh_in_value h < 65536 := by
  obtain ⟨hlo, hhi⟩ := clip_humidity_mem h
  have hq0 : (0 : ℚ) ≤ clip_humidity h * 512 := by nlinarith
  rw [rh_in_value, ratTrunc_of_nonneg hq0]
  constructor
  · exact Int.floor_nonneg.mpr hq0
  · have hle : clip_humidity h * 512 ≤ 51200 := by nlinarith
    have h2 : ⌊clip_humidity h * 512⌋ ≤ ⌊(51200 : ℚ)⌋ := Int.floor_le_floor hle
    have h3 : ⌊(51200 : ℚ)⌋ = 51200 := by norm_num
    omega

/-- C2 counterexample: at input 25 °C the code writes `temp_in = 19081`
(truncation), while the claim's `round`-based encoding yields 19082, so the
claimed formula disagrees with the code (and with the claim's own expected
value) at (25.0, 50.0). -/
theorem set_compensation_round_counterexample :
    temp_in_value 25 = 19081 ∧ temp_in_round_spec 25 = 19082 ∧
    temp_in_value 25 ≠ temp_in_round_spec 25 := by
  have hclip : clip_temperature 25 = 25 := by
    norm_num [clip_temperature, min_def, max_def]
  have h1 : temp_in_value 25 = 19081 := by
    rw [temp_in_value, hclip, ratTrunc_of_nonneg (by norm_num)]
    norm_num
  have h2 : temp_in_round_spec 25 = 19082 := by
    rw [temp_in_round_spec, hclip, round_eq]
    norm_num
  exact ⟨h1, h2, by rw [h1, h2]; decide⟩

/-- C2 (amended): `set_compensation` clips the temperature to [-40, 85] and
the humidity to [0, 100], then writes `temp_in = int((clipped+273.15)*64)`
and `rh_in = int(clipped*512)` — Python `int()` truncation toward zero, not
rounding; both values fit in an unsigned 16-bit register.  Input (25, 50)
yields (19081, 25600); (-50, -10) is encoded as the clipped (-40, 0), giving
(14921, 0); (90, 120) as the clipped (85, 100), giving (22921, 51200). -/
theorem set_compensation_encoding :
    set_compensation 25 50 = (19081, 25600) ∧
    set_compensation (-50) (-10) = set_compensation (-40) 0 ∧
    set_compensation (-50) (-10) = (14921, 0) ∧
    set_compensation 90 120 = set_compensation 85 100 ∧
    set_compensation 90 120 = (22921, 51200) ∧
    (∀ t h, 0 ≤ (set_compensation t h).1 ∧ (set_compensation t h).1 < 65536 ∧
      0 ≤ (set_compensation t h).2 ∧ (set_compensation t h).2 < 65536) := by
  have htv : ∀ x : ℚ, -40 ≤ x → x ≤ 85 → clip_temperature x = x := by
    intro x h1 h2
    rw [clip_temperature, min_eq_right h2, max_eq_right h1]
  have hhv : ∀ x : ℚ, 0 ≤ x → x ≤ 100 → clip_humidity x = x := by
    intro x h1 h2
    rw [clip_humidity, min_eq_right h2, max_eq_right h1]
  have ht25 : temp_in_value 25 = 19081 := by
    rw [temp_in_value, htv 25 (by norm_num) (by norm_num),
      ratTrunc_of_nonneg (by norm_num)]
    norm_num
  have hh50 : rh_in_value 50 = 25600 := by
    rw [rh_in_value, hhv 50 (by norm_num) (by norm_num),
      ratTrunc_of_nonneg (by norm_num)]
    norm_num
  have hclipT : clip_temperature (-50) = -40 := by
    norm_num [clip_temperature, min_def, max_def]
  have hclipT90 : clip_temperature 90 = 85 := by
    norm_num [clip_temperature, min_def, max_def]
  have hclipH : clip_humidity (-10) = 0 := by
    norm_num [clip_humidity, min_def, max_def]
  have hclipH120 : clip_humidity 120 = 100 := by
    norm_num [clip_humidity, min_def, max_def]
  have htm : temp_in_value (-50) = 14921 := by
    rw [temp_in_value, hclipT, ratTrunc_of_nonneg (by norm_num)]
    norm_num
  have htm' : temp_in_value (-40) = 14921 := by
    rw [temp_in_value, htv (-40) (by norm_num) (by norm_num),
      ratTrunc_of_nonneg (by norm_num)]
    norm_num
  have hhm : rh_in_value (-10) = 0 := by
    rw [rh_in_value, hclipH, ratTrunc_of_nonneg (by norm_num)]
    norm_num
  have hhm' : rh_in_value 0 = 0 := by
    rw [rh_in_value, hhv 0 (by norm_num) (by norm_num),
      ratTrunc_of_nonneg (by norm_num)]
    norm_num
  have ht90 : temp_in_value 90 = 22921 := by
    rw [temp_in_value, hclipT90, ratTrunc_of_nonneg (by norm_num)]
    norm_num
  have ht85 : temp_in_value 85 = 22921 := by
    rw [temp_in_value, htv 85 (by norm_num) (by norm_num),
      ratTrunc_of_nonneg (by norm_num)]
    norm_num
  have hh120 : rh_in_value 120 = 51200 := by
    rw [rh_in_value, hclipH120, ratTrunc_of_nonneg (by norm_num)]
    norm_num
  have hh100 : rh_in_value 100 = 51200 := by
    rw [rh_in_value, hhv 100 (by norm_num) (by norm_num),
      ratTrunc_of_nonneg (by norm_num)]
    norm_num
  refine ⟨?_, ?_, ?_, ?_, ?_, fun t h => ?_⟩
  · simp [set_compensation, ht25, hh50]
  · simp [set_compensation, htm, htm', hhm, hhm']
  · simp [set_compensation, htm, hhm]
  · simp [set_compensation, ht90, ht85, hh120, hh100]
  · simp [set_compensation, ht90, hh120]
  · exact ⟨(temp_in_value_range t).1, (temp_in_value_range t).2,
      (rh_in_value_range h).1, (rh_in_value_range h).2⟩

/-! ## ENS160 construction identity check (C3) -/

/-- C3: the identity-check step accepts exactly part id 0x0160 and raises
`ENS160InitError` on a mismatch, but when the device is unreachable (both
read attempts raise `OSError`) the error escaping the step is
`ENS160CommunicationError`, not `ENS160InitError`: `_read_registers` already
converted the `OSError`, so the `except OSError` clause never fires and the
claimed "InitFailure in both situations" fails on the unreachable case. -/
theorem ens_init_check_kinds :
    ens_init_check (some [0x60, 0x01]) none = .ok () ∧
    ens_init_check (some [0x61, 0x01]) none = .error .initError ∧
    ens_init_check none none = .error .commError ∧
    ENSExc.commError ≠ ENSExc.initError ∧
    (∀ r1 r2, ens_init_check r1 r2 = .error .commError ↔ r1 = none ∧ r2 = none) := by
  refine ⟨rfl, rfl, rfl, fun h => ENSExc.noConfusion h, fun r1 r2 => ?_⟩
  cases r1 with
  | some b =>
    simp only [ens_init_check, ens_read_registers]
    split_ifs <;> simp
  | none =>
    cases r2 with
    | some b =>
      simp only [ens_init_check, ens_read_registers]
      split_ifs <;> simp
    | none => simp [ens_init_check, ens_read_registers]

/-- C3 witness: the unreachable-device case concretely yields the
communication error kind. -/
theorem ens_init_check_kinds_witness :
    ens_init_check none none = .error .commError :=
  ens_init_check_kinds.2.2.1

/-! ## ENS160.update theorems (C1, C9) -/

/-- C9: when the status byte read at the start of `update()` has the NEWDAT
bit (bit 1) clear, `update()` returns `False`, performs no reset and leaves
every cached field exactly as it was. -/
theorem ens_update_no_new_data (tr : Nat → Nat × List Nat) (fuel n : Nat)
    (cache : ENSCache) (hf : 0 < fuel) (h : (tr n).1 &&& 0x02 = 0) :
    ens_update tr fuel n cache = some (false, cache, 0) := by
  cases fuel with
  | zero => omega
  | succ fuel => simp [ens_update, h]

/-- C9 witness: a transport whose status byte is 0 leaves the freshly reset
cache untouched. -/
theorem ens_update_no_new_data_witness :
    ens_update (fun _ => (0, ensGoodData)) 1 0 resetCache = some (false, resetCache, 0) :=
  ens_update_no_new_data _ 1 0 _ (by decide) (by decide)

/-- C1: evaluation of `update()` at the failing transports.  With validity
Error once then Normal, `update()` does perform exactly one reset and one
retry and returns `True` with the fresh reading.  But with Error on both of
the first two reads and Normal on the third, `update()` performs a second
reset and a third full update attempt, returning that attempt's result
(`True`) instead of the claimed `False` after the second Error; and with
Error on every read the recursion never returns at all (every fuel bound is
exhausted). -/
theorem ens_update_unbounded_recovery :
    ens_update errOnceTr 2 0 resetCache = some (true, ⟨2, 0x1234, 0x0320, 0⟩, 1) ∧
    ens_update errErrGoodTr 3 0 resetCache = some (true, ⟨2, 0x1234, 0x0320, 0⟩, 2) ∧
    (∀ fuel n cache, ens_update errAlwaysTr fuel n cache = none) := by
  refine ⟨by decide, by decide, ?_⟩
  intro fuel
  induction fuel with
  | zero => intro n cache; rfl
  | succ fuel ih =>
    intro n cache
    simp [ens_update, errAlwaysTr, parseBurst, ensErrData, ih]

/-- C1 witness: with persistent Error validity, even a fuel budget of five
full update attempts is exhausted without `update()` returning. -/
theorem ens_update_unbounded_recovery_witness :
    ens_update errAlwaysTr 5 0 resetCache = none :=
  ens_update_unbounded_recovery.2.2 5 0 resetCache

/-! ## Firmware-version mode restoration (C7) -/

/-- C7: on every exit path of `get_firmware_version()` — normal return or a
failure of the Idle mode switch, the command write or the GPR read — the last
OPMODE register write of the call is Standard (0x02), provided the `finally`
restore write itself goes through. -/
theorem fw_restores_standard (tr : FwTr) (h : tr.restoreW = true) :
    (opmode_writes (get_firmware_version tr).2).getLast? = some 0x02 := by
  rcases tr with ⟨i, c, g, r⟩
  cases r with
  | false => exact absurd h (by simp)
  | true =>
    cases i <;> cases c <;> rcases g with _ | g <;>
      simp [get_firmware_version, opmode_writes]

/-- C7 witness: a fully successful call ends with an OPMODE write of 0x02. -/
theorem fw_restores_standard_witness :
    (opmode_writes
      (get_firmware_version ⟨true, true, some [0, 0, 0, 0, 1, 2, 3, 0], true⟩).2).getLast?
      = some 0x02 :=
  fw_restores_standard _ rfl

/-! ## AHT21 construction calibration (C8) -/

/-- Calibration check `i` read an uncalibrated status byte. -/
def checkFails (st : Nat → I2CRes Nat) (i : Nat) : Prop :=
  ∃ s, st i = .ok s ∧ is_calibrated_status s = false

/-- Calibration check `i` read a calibrated status byte. -/
def checkPasses (st : Nat → I2CRes Nat) (i : Nat) : Prop :=
  ∃ s, st i = .ok s ∧ is_calibrated_status s = true

/-- C8: `AHT21.__init__` performs at most 3 calibration checks; it raises
`AHT21CalibrationError` exactly when all three checks read an uncalibrated
status byte; and it returns successfully at the first passing check, having
sent one initialize command `[0xBE, 0x08, 0x00]` per failed check before
it. -/
theorem aht21_init_calibration (st : Nat → I2CRes Nat) :
    (aht21_init st).2.1 ≤ 3 ∧
    ((aht21_init st).1 = .error .calibError ↔
      (checkFails st 0 ∧ checkFails st 1 ∧ checkFails st 2)) ∧
    (checkPasses st 0 → aht21_init st = (.ok (), 1, [])) ∧
    (checkFails st 0 → checkPasses st 1 →
      aht21_init st = (.ok (), 2, [[0xBE, 0x08, 0x00]])) ∧
    (checkFails st 0 → checkFails st 1 → checkPasses st 2 →
      aht21_init st = (.ok (), 3, [[0xBE, 0x08, 0x00], [0xBE, 0x08, 0x00]])) := by
  cases h0 : st 0 with
  | osErr => simp [aht21_init, aht21_init_go, h0, checkFails, checkPasses]
  | ok s0 =>
    cases hc0 : is_calibrated_status s0 with
    | true => simp [aht21_init, aht21_init_go, h0, hc0, checkFails, checkPasses]
    | false =>
      cases h1 : st 1 with
      | osErr => simp [aht21_init, aht21_init_go, h0, hc0, h1, checkFails, checkPasses]
      | ok s1 =>
        cases hc1 : is_calibrated_status s1 with
        | true => simp [aht21_init, aht21_init_go, h0, hc0, h1, hc1, checkFails, checkPasses]
        | false =>
          cases h2 : st 2 with
          | osErr =>
            simp [aht21_init, aht21_init_go, h0, hc0, h1, hc1, h2, checkFails, checkPasses]
          | ok s2 =>
            cases hc2 : is_calibrated_status s2 with
            | true =>
              simp [aht21_init, aht21_init_go, h0, hc0, h1, hc1, h2, hc2,
                checkFails, checkPasses]
            | false =>
              simp [aht21_init, aht21_init_go, h0, hc0, h1, hc1, h2, hc2,
                checkFails, checkPasses]

/-- C8 witness: a status byte with both calibration bits set makes
construction succeed on the first check with no initialize command sent. -/
theorem aht21_init_calibration_witness :
    aht21_init (fun _ => .ok 0x18) = (.ok (), 1, []) :=
  (aht21_init_calibration _).2.2.1 ⟨0x18, rfl, rfl⟩

/-! ## read_temperature_humidity with non-positive retries (C10) -/

/-- C10: with `retries ≤ 0` the retry loop body never runs and
`read_temperature_humidity` returns Python `None` — no measurement tuple, no
exception — and the result is independent of the transport, so no transport
operation can influence it. -/
theorem read_th_nonpositive_retries (tr : Nat → AttemptBeh) (retries : ℤ)
    (h : retries ≤ 0) :
    read_temperature_humidity tr retries = (none, []) ∧
    ∀ tr', read_temperature_humidity tr' retries = read_temperature_humidity tr retries := by
  have key : ∀ tr0 : Nat → AttemptBeh, read_temperature_humidity tr0 retries = (none, []) := by
    intro tr0
    unfold read_temperature_humidity read_th_loop
    split
    · exfalso; omega
    · rfl
  exact ⟨key tr, fun tr' => by rw [key tr', key tr]⟩

/-- C10 witness: `retries = 0` yields `None` with no attempt made. -/
theorem read_th_nonpositive_retries_witness :
    read_temperature_humidity osTr 0 = (none, []) :=
  (read_th_nonpositive_retries osTr 0 (by norm_num)).1

/-! ## Frame decoding (C6) -/

/-- Spec formula: `humidity% = raw / 1048576 × 100`. -/
def spec_humidity (data : List Nat) : ℚ := (raw_humidity data : ℚ) / 1048576 * 100

/-- Spec formula: `temperature°C = raw / 1048576 × 200 − 50`. -/
def spec_temperature (data : List Nat) : ℚ :=
  (raw_temperature data : ℚ) / 1048576 * 200 - 50

lemma getD_lt_256 (data : List Nat) (hbytes : ∀ x ∈ data, x < 256) (i : Nat) :
    data.getD i 0 < 256 := by
  induction data generalizing i with
  | nil => simp
  | cons a l ih =>
    cases i with
    | zero => simpa using hbytes a (by simp)
    | succ i =>
      simpa using ih (fun x hx => hbytes x (by simp [hx])) i

lemma raw_fields_lt (data : List Nat) (hbytes : ∀ x ∈ data, x < 256) :
    raw_humidity data < 2 ^ 20 ∧ raw_temperature data < 2 ^ 20 := by
  have h1 := getD_lt_256 data hbytes 1
  have h2 := getD_lt_256 data hbytes 2
  have h3 := getD_lt_256 data hbytes 3
  have h4 := getD_lt_256 data hbytes 4
  have h5 := getD_lt_256 data hbytes 5
  constructor
  · refine Nat.or_lt_two_pow (Nat.or_lt_two_pow ?_ ?_) ?_
    · rw [Nat.shiftLeft_eq]; omega
    · rw [Nat.shiftLeft_eq]; omega
    · rw [Nat.shiftRight_eq_div_pow]; omega
  · have hand : data.getD 3 0 &&& 0x0F ≤ 0x0F := Nat.and_le_right
    refine Nat.or_lt_two_pow (Nat.or_lt_two_pow ?_ ?_) ?_
    · rw [Nat.shiftLeft_eq]; omega
    · rw [Nat.shiftLeft_eq]; omega
    · omega

/-- C6: every frame that passes the acceptance checks of
`read_temperature_humidity` (trigger delivered, busy flag observed clear
within the poll budget, CRC over the first six bytes equal to byte 7) is
decoded to the pair (temperature, humidity) given by the documented 20-bit
field extractions and conversion formulas, and both raw fields are 20-bit
values. -/
theorem aht_decode_formulas (b : AttemptBeh) (data : List Nat)
    (htr : b.trigger = .ok ())
    (hpoll : poll_busy b.statusBytes 0 = .ok ())
    (hfr : b.frame = .ok data)
    (hcrc : calculate_crc8 (data.take 6) = data.getD 6 0)
    (hbytes : ∀ x ∈ data, x < 256) :
    do_attempt b = .ok (spec_temperature data, spec_humidity data) ∧
    raw_humidity data < 2 ^ 20 ∧ raw_temperature data < 2 ^ 20 := by
  refine ⟨?_, raw_fields_lt data hbytes⟩
  simp [do_attempt, htr, hpoll, hfr, hcrc, spec_temperature, spec_humidity]

set_option maxRecDepth 100000 in
/-- C6 witness: a concrete well-formed frame decodes to (50 °C, 50 %RH). -/
theorem aht_decode_formulas_witness : do_attempt (okBeh goodFrame) = .ok (50, 50) := by
  have h := (aht_decode_formulas (okBeh goodFrame) goodFrame rfl
    (by simp [okBeh, poll_busy]) rfl (by decide) (by decide)).1
  have hT : raw_temperature goodFrame = 524288 := by decide
  have hH : raw_humidity goodFrame = 524288 := by decide
  rw [h, spec_temperature, spec_humidity, hT, hH]
  norm_num

/-! ## Retry policy of read_temperature_humidity (C4) -/

lemma do_attempt_okBeh_bad (f : List Nat)
    (h : calculate_crc8 (f.take 6) ≠ f.getD 6 0) :
    do_attempt (okBeh f) = .error .crcError := by
  have hpoll : poll_busy (fun _ => .ok 0) 0 = .ok () := by simp [poll_busy]
  simp [do_attempt, okBeh, hpoll]
  simpa using h

lemma do_attempt_okBeh_good (f : List Nat)
    (h : calculate_crc8 (f.take 6) = f.getD 6 0) :
    do_attempt (okBeh f) =
      .ok ((raw_temperature f : ℚ) / 1048576 * 200 - 50,
           (raw_humidity f : ℚ) / 1048576 * 100) := by
  have hpoll : poll_busy (fun _ => .ok 0) 0 = .ok () := by simp [poll_busy]
  simp [do_attempt, okBeh, hpoll, h]

lemma read_th_loop_retry_step (tr : Nat → AttemptBeh) (retries : ℤ) (a : Nat)
    (e : AHTFail) (hlt : (a : ℤ) < retries) (hne : ((a : ℤ)) ≠ retries - 1)
    (he : e = .crcError ∨ e = .timeoutError)
    (hde : do_attempt (tr a) = .error e) :
    read_th_loop tr retries a =
      ((read_th_loop tr retries (a + 1)).1, 50 :: (read_th_loop tr retries (a + 1)).2) := by
  rw [read_th_loop.eq_def, dif_pos hlt, hde]
  rcases he with he | he <;> subst he <;> simp [hne]

lemma read_th_loop_last_fail (tr : Nat → AttemptBeh) (retries : ℤ) (a : Nat)
    (e : AHTFail) (hlt : (a : ℤ) < retries) (heq : ((a : ℤ)) = retries - 1)
    (he : e = .crcError ∨ e = .timeoutError)
    (hde : do_attempt (tr a) = .error e) :
    read_th_loop tr retries a = (some (.error e), []) := by
  rw [read_th_loop.eq_def, dif_pos hlt, hde]
  rcases he with he | he <;> subst he <;> simp [heq]

lemma read_th_loop_ok (tr : Nat → AttemptBeh) (retries : ℤ) (a : Nat)
    (v : ℚ × ℚ) (hlt : (a : ℤ) < retries) (hok : do_attempt (tr a) = .ok v) :
    read_th_loop tr retries a = (some (.ok v), []) := by
  rw [read_th_loop.eq_def, dif_pos hlt, hok]

lemma read_th_loop_nonretry (tr : Nat → AttemptBeh) (retries : ℤ) (a : Nat)
    (e : AHTFail) (hlt : (a : ℤ) < retries)
    (he : ¬ (e = .crcError ∨ e = .timeoutError))
    (hde : do_attempt (tr a) = .error e) :
    read_th_loop tr retries a = (some (.error e), []) := by
  rw [read_th_loop.eq_def, dif_pos hlt, hde]
  simp [he]

lemma read_th_loop_skip (tr : Nat → AttemptBeh) (retries : ℤ) (k : Nat) :
    ∀ a : Nat, ((a + k : ℕ) : ℤ) < retries →
    (∀ i, a ≤ i → i < a + k →
      ∃ e, (e = AHTFail.crcError ∨ e = AHTFail.timeoutError) ∧
        do_attempt (tr i) = .error e) →
    read_th_loop tr retries a =
      ((read_th_loop tr retries (a + k)).1,
        List.replicate k 50 ++ (read_th_loop tr retries (a + k)).2) := by
  induction k with
  | zero => intro a _ _; simp
  | succ k ih =>
    intro a hlt hfail
    obtain ⟨e, he, hde⟩ := hfail a le_rfl (by omega)
    have h1 : (a : ℤ) < retries := by push_cast at hlt ⊢; omega
    have h2 : ((a : ℤ)) ≠ retries - 1 := by push_cast at hlt ⊢; omega
    rw [read_th_loop_retry_step tr retries a e h1 h2 he hde]
    have hrec := ih (a + 1) (by push_cast at hlt ⊢; omega)
      (fun i hi1 hi2 => hfail i (by omega) (by omega))
    have hsk : a + 1 + k = a + (k + 1) := by omega
    rw [hsk] at hrec
    rw [hrec]
    simp [List.replicate_succ]

set_option maxRecDepth 100000 in
/-- C4: the retry loop of `read_temperature_humidity` retries only after a
CRC-mismatch or busy-timeout failure, sleeping 50 ms between attempts; an
`OSError` (or a success) on attempt `n` ends the call there; when every
attempt fails with a retryable error, the call makes exactly `retries`
attempts and raises the failure of the last one; and the transport yielding
CRC mismatch twice then a valid frame makes `retries = 3` succeed with the
decoded value. -/
theorem aht_read_retry_policy :
    (∀ (tr : Nat → AttemptBeh) (retries : ℤ) (n : Nat),
      (n : ℤ) < retries →
      (∀ i < n, ∃ e, (e = AHTFail.crcError ∨ e = AHTFail.timeoutError) ∧
        do_attempt (tr i) = .error e) →
      do_attempt (tr n) = .error .osError →
      read_temperature_humidity tr retries =
        (some (.error .osError), List.replicate n 50)) ∧
    (∀ (tr : Nat → AttemptBeh) (retries : ℤ) (n : Nat) (v : ℚ × ℚ),
      (n : ℤ) < retries →
      (∀ i < n, ∃ e, (e = AHTFail.crcError ∨ e = AHTFail.timeoutError) ∧
        do_attempt (tr i) = .error e) →
      do_attempt (tr n) = .ok v →
      read_temperature_humidity tr retries = (some (.ok v), List.replicate n 50)) ∧
    (∀ (tr : Nat → AttemptBeh) (retries : ℤ),
      1 ≤ retries →
      (∀ i : Nat, (i : ℤ) < retries →
        ∃ e, (e = AHTFail.crcError ∨ e = AHTFail.timeoutError) ∧
          do_attempt (tr i) = .error e) →
      ∃ e, (e = AHTFail.crcError ∨ e = AHTFail.timeoutError) ∧
        do_attempt (tr (retries.toNat - 1)) = .error e ∧
        read_temperature_humidity tr retries =
          (some (.error e), List.replicate (retries.toNat - 1) 50)) ∧
    read_temperature_humidity crcThenGoodTr 3 = (some (.ok (50, 50)), [50, 50]) := by
  have hbridge : ∀ (tr : Nat → AttemptBeh) (retries : ℤ),
      read_temperature_humidity tr retries = read_th_loop tr retries 0 := fun _ _ => rfl
  refine ⟨?_, ?_, ?_, ?_⟩
  · intro tr retries n hn hfail hos
    rw [hbridge, read_th_loop_skip tr retries n 0 (by simpa using hn)
      (fun i hi1 hi2 => hfail i (by omega))]
    simp only [Nat.zero_add]
    rw [read_th_loop_nonretry tr retries n .osError hn (by decide) hos]
    simp
  · intro tr retries n v hn hfail hok
    rw [hbridge, read_th_loop_skip tr retries n 0 (by simpa using hn)
      (fun i hi1 hi2 => hfail i (by omega))]
    simp only [Nat.zero_add]
    rw [read_th_loop_ok tr retries n v hn hok]
    simp
  · intro tr retries hr hfail
    set n : Nat := retries.toNat - 1 with hn
    have hnlt : (n : ℤ) < retries := by omega
    obtain ⟨e, he, hde⟩ := hfail n hnlt
    refine ⟨e, he, hde, ?_⟩
    rw [hbridge, read_th_loop_skip tr retries n 0 (by simpa using hnlt)
      (fun i hi1 hi2 => hfail i (by omega))]
    simp only [Nat.zero_add]
    rw [read_th_loop_last_fail tr retries n e hnlt (by omega) he hde]
    simp
  · have hbad : do_attempt (okBeh badFrame) = .error .crcError :=
      do_attempt_okBeh_bad badFrame (by decide)
    have hgood : do_attempt (okBeh goodFrame) = .ok (50, 50) := by
      have h := do_attempt_okBeh_good goodFrame (by decide)
      have hT : raw_temperature goodFrame = 524288 := by decide
      have hH : raw_humidity goodFrame = 524288 := by decide
      rw [h, hT, hH]
      norm_num
    have hfail : ∀ i, 0 ≤ i → i < 0 + 2 →
        ∃ e, (e = AHTFail.crcError ∨ e = AHTFail.timeoutError) ∧
          do_attempt (crcThenGoodTr i) = .error e := by
      intro i _ hi
      have h2 : i < 2 := by omega
      refine ⟨.crcError, Or.inl rfl, ?_⟩
      have : crcThenGoodTr i = okBeh badFrame := by simp [crcThenGoodTr, h2]
      rw [this, hbad]
    have h2 : crcThenGoodTr 2 = okBeh goodFrame := by simp [crcThenGoodTr]
    rw [hbridge, read_th_loop_skip crcThenGoodTr 3 2 0 (by norm_num) hfail,
      read_th_loop_ok crcThenGoodTr 3 (0 + 2) (50, 50) (by norm_num)
        (by rw [show (0 + 2 : Nat) = 2 from rfl, h2, hgood])]
    simp [List.replicate]

/-- C4 witness: an `OSError` raised during the first attempt propagates
immediately, with no retry sleep. -/
theorem aht_read_retry_policy_witness :
    read_temperature_humidity osTr 2 = (some (.error .osError), []) := by
  have h := aht_read_retry_policy.1 osTr 2 0 (by norm_num)
    (fun i hi => absurd hi (Nat.not_lt_zero i)) rfl
  simpa using h

end Sensors
